import Mathlib

/-!
Shallow embedding of the weerust weather-telemetry service
(crates weex-core, weex-archive, weex-ingest, weewx-cli).

Modelling conventions:
* Rust `f64` is modelled by `F64`: a tagged value that is either NaN, one of
  the two infinities, or an exact rational.  Finite arithmetic is exact
  (no rounding); every concrete value appearing in the claims is exactly
  representable, and the special-value (NaN / infinity) behaviour of the
  operations used by the code (`+`, `/`, `f64::min`, `f64::max`) is modelled
  faithfully.
* Rust `HashMap<String, _>` is modelled as an association list in insertion
  order; per-key semantics (get / insert-overwrite / entry-or-insert) match
  `HashMap`, and no property proved below depends on iteration order of
  distinct keys.
* `i64` / `i32` are modelled as `Int`; `usize` as `Nat`.  Rust integer
  division `/` on `i64` truncates toward zero and is modelled by `Int.tdiv`.
* Fallible functions return `Except`; functions that mutate `&mut self` and
  may fail before mutating return the (possibly unchanged) state alongside
  the result.
-/

/-- Model of Rust `f64`: NaN, the infinities, or an exact finite value. -/
inductive F64 where
  | nan : F64
  | inf : F64
  | neginf : F64
  | finite (q : ℚ) : F64
deriving DecidableEq

/-- Model of `f64` addition (`+`, also the fold of `Iterator::sum`):
NaN is absorbing, `inf + neginf = NaN`, finite addition is exact. -/
def fAdd : F64 → F64 → F64
  | F64.nan, _ => F64.nan
  | _, F64.nan => F64.nan
  | F64.inf, F64.neginf => F64.nan
  | F64.neginf, F64.inf => F64.nan
  | F64.inf, _ => F64.inf
  | _, F64.inf => F64.inf
  | F64.neginf, _ => F64.neginf
  | _, F64.neginf => F64.neginf
  | F64.finite a, F64.finite b => F64.finite (a + b)

/-- Model of Rust `f64::min`: if one argument is NaN the other is returned
(NaN is ignored); otherwise the IEEE minimum. -/
def fMin : F64 → F64 → F64
  | F64.nan, y => y
  | x, F64.nan => x
  | F64.neginf, _ => F64.neginf
  | _, F64.neginf => F64.neginf
  | F64.inf, y => y
  | x, F64.inf => x
  | F64.finite a, F64.finite b => F64.finite (min a b)

/-- Model of Rust `f64::max`: if one argument is NaN the other is returned
(NaN is ignored); otherwise the IEEE maximum. -/
def fMax : F64 → F64 → F64
  | F64.nan, y => y
  | x, F64.nan => x
  | F64.inf, _ => F64.inf
  | _, F64.inf => F64.inf
  | F64.neginf, y => y
  | x, F64.neginf => x
  | F64.finite a, F64.finite b => F64.finite (max a b)

/-- Model of `f64` division; only finite-by-positive-finite and
special-by-finite cases are exercised by the code (`Avg` divides by a
packet count, which is a positive integer). -/
def fDiv : F64 → F64 → F64
  | F64.nan, _ => F64.nan
  | _, F64.nan => F64.nan
  | F64.inf, F64.inf => F64.nan
  | F64.inf, F64.neginf => F64.nan
  | F64.neginf, F64.inf => F64.nan
  | F64.neginf, F64.neginf => F64.nan
  | F64.inf, F64.finite q => if 0 ≤ q then F64.inf else F64.neginf
  | F64.neginf, F64.finite q => if 0 ≤ q then F64.neginf else F64.inf
  | F64.finite _, F64.inf => F64.finite 0
  | F64.finite _, F64.neginf => F64.finite 0
  | F64.finite a, F64.finite b =>
      if b = 0 then
        if a = 0 then F64.nan else if 0 < a then F64.inf else F64.neginf
      else F64.finite (a / b)

/-- Rust enum `ObservationValue` (weex-core/src/types.rs).  The `String`
variant is named `Str` here to avoid clashing with the string type. -/
inductive ObservationValue where
  | Float (v : F64) : ObservationValue
  | Integer (v : ℤ) : ObservationValue
  | Str (s : String) : ObservationValue
  | Null : ObservationValue
deriving DecidableEq

/-- `ObservationValue::as_f64` (weex-core/src/types.rs): Float as is,
Integer promoted to float, String and Null are non-numeric. -/
def ObservationValue.as_f64 : ObservationValue → Option F64
  | ObservationValue.Float v => some v
  | ObservationValue.Integer v => some (F64.finite (v : ℚ))
  | _ => none

/-- Rust enum `AggregateType` (weex-core/src/types.rs). -/
inductive AggregateType where
  | Min | Max | Sum | Avg | Last | First | Count
deriving DecidableEq

/-- Rust struct `WeatherPacket` (weex-core/src/types.rs); the observation
`HashMap` is modelled as an association list. -/
structure WeatherPacket where
  date_time : ℤ
  station : Option String
  interval : Option ℤ
  observations : List (String × ObservationValue)
deriving DecidableEq

/-- Rust struct `Accumulator` (weex-core/src/rollups.rs). -/
structure Accumulator where
  observations : List F64
  aggregate_type : AggregateType
deriving DecidableEq

/-- `Accumulator::new` (weex-core/src/rollups.rs). -/
def Accumulator.new (aggregate_type : AggregateType) : Accumulator :=
  { observations := [], aggregate_type := aggregate_type }

/-- `Accumulator::add` (weex-core/src/rollups.rs): `Vec::push`. -/
def Accumulator.add (a : Accumulator) (value : F64) : Accumulator :=
  { a with observations := a.observations ++ [value] }

/-- `Accumulator::result` (weex-core/src/rollups.rs).  Mirrors the source:
empty check first, then a match on the aggregate type.  `Min`/`Max` fold
`f64::min`/`f64::max` seeded with the infinities; `Sum` folds `+` from `0.0`
in order; `Avg` is sum over count; `Last`/`First` use the `?`-propagated
`last()`/`first()`; `Count` is the length as a float. -/
def Accumulator.result (a : Accumulator) : Option F64 :=
  if a.observations.isEmpty then none
  else
    match a.aggregate_type with
    | AggregateType.Min => some (a.observations.foldl fMin F64.inf)
    | AggregateType.Max => some (a.observations.foldl fMax F64.neginf)
    | AggregateType.Sum => some (a.observations.foldl fAdd (F64.finite 0))
    | AggregateType.Avg =>
        let sum := a.observations.foldl fAdd (F64.finite 0)
        some (fDiv sum (F64.finite (a.observations.length : ℚ)))
    | AggregateType.Last => a.observations.getLast?
    | AggregateType.First => a.observations.head?
    | AggregateType.Count => some (F64.finite (a.observations.length : ℚ))

/-- `default_aggregate_type` (weex-core/src/rollups.rs): the deterministic
default-aggregate table, any unlisted key falling through to `Last`. -/
def default_aggregate_type (obs_type : String) : AggregateType :=
  if obs_type = "rain" then AggregateType.Sum
  else if obs_type = "outTemp" ∨ obs_type = "inTemp" ∨ obs_type = "dewpoint"
      ∨ obs_type = "heatindex" ∨ obs_type = "windchill" then AggregateType.Avg
  else if obs_type = "barometer" ∨ obs_type = "pressure" ∨ obs_type = "altimeter" then
    AggregateType.Avg
  else if obs_type = "windSpeed" then AggregateType.Avg
  else if obs_type = "windGust" then AggregateType.Max
  else if obs_type = "windDir" ∨ obs_type = "windGustDir" then AggregateType.Last
  else if obs_type = "outHumidity" ∨ obs_type = "inHumidity" then AggregateType.Avg
  else if obs_type = "radiation" then AggregateType.Avg
  else if obs_type = "UV" then AggregateType.Avg
  else AggregateType.Last

/-- Association-list lookup, the model of `HashMap::get`. -/
def lookupKey {α : Type} : List (String × α) → String → Option α
  | [], _ => none
  | (k, v) :: rest, key => if k = key then some v else lookupKey rest key

/-- Model of the `entry(key).or_insert_with(Accumulator::new(..)).add(v)`
step of `aggregate_packets`: update the accumulator for `key` in place, or
append a fresh one seeded with the default aggregate type for `key`. -/
def addToAccumulators : List (String × Accumulator) → String → F64 →
    List (String × Accumulator)
  | [], key, v => [(key, (Accumulator.new (default_aggregate_type key)).add v)]
  | (k, acc) :: rest, key, v =>
      if k = key then (k, acc.add v) :: rest
      else (k, acc) :: addToAccumulators rest key v

/-- `aggregate_packets` (weex-core/src/rollups.rs): scan every packet's
observations, skip non-numeric values, route numeric ones into per-key
accumulators, and return the map of `(aggregate type, result)`. -/
def aggregate_packets (packets : List WeatherPacket) :
    List (String × (AggregateType × Option F64)) :=
  let accumulators := packets.foldl
    (fun m packet => packet.observations.foldl
      (fun m kv =>
        match kv.2.as_f64 with
        | some numeric_value => addToAccumulators m kv.1 numeric_value
        | none => m)
      m)
    []
  accumulators.map (fun kv => (kv.1, (kv.2.aggregate_type, kv.2.result)))

/-- Rust enum `ArchiveError` (weex-archive/src/lib.rs). -/
inductive ArchiveError where
  | DatabaseError (detail : String) : ArchiveError
  | AggregationError (detail : String) : ArchiveError
  | InvalidInterval (detail : String) : ArchiveError
  | BufferOverflow : ArchiveError
deriving DecidableEq

deriving instance DecidableEq for Except

/-- Rust struct `PacketBuffer` (weex-archive/src/buffer.rs). -/
structure PacketBuffer where
  interval : ℤ
  packets : List WeatherPacket
  current_interval_end : Option ℤ
  max_packets : ℕ
deriving DecidableEq

/-- `PacketBuffer::new` (weex-archive/src/buffer.rs): the safety cap is
`(interval as usize * 2).max(100)`; the `as usize` cast is modelled by
`Int.toNat`, which agrees with Rust for the non-negative intervals the
constructor is used with. -/
def PacketBuffer.new (interval : ℤ) : PacketBuffer :=
  { interval := interval,
    packets := [],
    current_interval_end := none,
    max_packets := (interval.toNat * 2).max 100 }

/-- `PacketBuffer::calculate_interval_end` (weex-archive/src/buffer.rs):
`((timestamp / interval) + 1) * interval` with Rust's truncating `i64`
division, modelled by `Int.tdiv`. -/
def PacketBuffer.calculate_interval_end (b : PacketBuffer) (timestamp : ℤ) : ℤ :=
  (Int.tdiv timestamp b.interval + 1) * b.interval

/-- `PacketBuffer::add` (weex-archive/src/buffer.rs).  Returns the Rust
result together with the post-call buffer (`&mut self` semantics: on the
early `BufferOverflow` return the buffer is unchanged). -/
def PacketBuffer.add (b : PacketBuffer) (packet : WeatherPacket) :
    Except ArchiveError (Option ℤ) × PacketBuffer :=
  if b.max_packets ≤ b.packets.length then
    (Except.error ArchiveError.BufferOverflow, b)
  else
    let packet_time := packet.date_time
    let interval_end :=
      match b.current_interval_end with
      | some e => e
      | none => b.calculate_interval_end packet_time
    let b1 := { b with current_interval_end := some interval_end }
    if packet_time ≤ interval_end then
      (Except.ok none, { b1 with packets := b1.packets ++ [packet] })
    else
      let completed_interval := b1.current_interval_end
      (Except.ok completed_interval,
        { b1 with
          packets := b1.packets ++ [packet],
          current_interval_end := some (b1.calculate_interval_end packet_time) })

/-- `PacketBuffer::drain` (weex-archive/src/buffer.rs): return all buffered
packets and reset `current_interval_end`. -/
def PacketBuffer.drain (b : PacketBuffer) : List WeatherPacket × PacketBuffer :=
  (b.packets, { b with packets := [], current_interval_end := none })

/-- Rust struct `ArchiveRow` (weex-db/src/schema.rs): the fixed archive
column schema. -/
structure ArchiveRow where
  date_time : ℤ
  us_units : ℤ
  interval : ℤ
  out_temp : Option F64
  in_temp : Option F64
  extra_temp1 : Option F64
  out_humidity : Option F64
  in_humidity : Option F64
  barometer : Option F64
  pressure : Option F64
  altimeter : Option F64
  wind_speed : Option F64
  wind_dir : Option F64
  wind_gust : Option F64
  wind_gust_dir : Option F64
  rain : Option F64
  rain_rate : Option F64
  dewpoint : Option F64
  windchill : Option F64
  heatindex : Option F64
  radiation : Option F64
  uv : Option F64
  rx_check_percent : Option F64
deriving DecidableEq

/-- Model of `DbClient` (weex-db) at the boundary used by the aggregator:
`insert_archive` appends the row.  The real client performs SQL I/O; its
failure modes are outside this embedding and inserts are modelled as
succeeding. -/
structure DbClient where
  rows : List ArchiveRow
deriving DecidableEq

/-- `DbClient::insert_archive`, modelled as appending to the row log. -/
def DbClient.insert_archive (db : DbClient) (row : ArchiveRow) : DbClient :=
  { rows := db.rows ++ [row] }

/-- Rust struct `IntervalAggregator` (weex-archive/src/aggregator.rs). -/
structure IntervalAggregator where
  interval : ℤ
  unit_system : ℤ
  buffer : PacketBuffer
  db_client : DbClient
deriving DecidableEq

/-- `IntervalAggregator::new` (weex-archive/src/aggregator.rs). -/
def IntervalAggregator.new (interval unit_system : ℤ) (db_client : DbClient) :
    IntervalAggregator :=
  { interval := interval,
    unit_system := unit_system,
    buffer := PacketBuffer.new interval,
    db_client := db_client }

/-- `IntervalAggregator::build_archive_row` (weex-archive/src/aggregator.rs):
project the aggregate map onto the fixed column schema; missing keys are
null. -/
def IntervalAggregator.build_archive_row (agg : IntervalAggregator)
    (date_time : ℤ)
    (aggregates : List (String × (AggregateType × Option F64))) : ArchiveRow :=
  let get_value := fun (key : String) =>
    match lookupKey aggregates key with
    | some tv => tv.2
    | none => none
  { date_time := date_time,
    us_units := agg.unit_system,
    interval := agg.interval,
    out_temp := get_value "outTemp",
    in_temp := get_value "inTemp",
    extra_temp1 := get_value "extraTemp1",
    out_humidity := get_value "outHumidity",
    in_humidity := get_value "inHumidity",
    barometer := get_value "barometer",
    pressure := get_value "pressure",
    altimeter := get_value "altimeter",
    wind_speed := get_value "windSpeed",
    wind_dir := get_value "windDir",
    wind_gust := get_value "windGust",
    wind_gust_dir := get_value "windGustDir",
    rain := get_value "rain",
    rain_rate := get_value "rainRate",
    dewpoint := get_value "dewpoint",
    windchill := get_value "windchill",
    heatindex := get_value "heatindex",
    radiation := get_value "radiation",
    uv := get_value "UV",
    rx_check_percent := get_value "rxCheckPercent" }

/-- `IntervalAggregator::flush_interval` (weex-archive/src/aggregator.rs):
drain the buffer, skip empty drains, aggregate, build the row and hand it
to the database client. -/
def IntervalAggregator.flush_interval (agg : IntervalAggregator)
    (end_time : ℤ) : IntervalAggregator :=
  let drained := agg.buffer.drain
  let packets := drained.1
  let agg1 := { agg with buffer := drained.2 }
  if packets.isEmpty then agg1
  else
    let aggregates := aggregate_packets packets
    let archive_row := agg1.build_archive_row end_time aggregates
    { agg1 with db_client := agg1.db_client.insert_archive archive_row }

/-- `IntervalAggregator::add_packet` (weex-archive/src/aggregator.rs):
feed the buffer; if it signals a completed interval, flush it. -/
def IntervalAggregator.add_packet (agg : IntervalAggregator)
    (packet : WeatherPacket) : Except ArchiveError IntervalAggregator :=
  match agg.buffer.add packet with
  | (Except.error e, _) => Except.error e
  | (Except.ok interval_end, buffer) =>
      let agg1 := { agg with buffer := buffer }
      match interval_end with
      | some end_time => Except.ok (agg1.flush_interval end_time)
      | none => Except.ok agg1

/-- `HISTORY_CAP` (weewx-cli/src/lib.rs). -/
def HISTORY_CAP : ℕ := 1000

/-- The mutable part of `AppState` (weewx-cli/src/lib.rs) touched by
`inject_packet`: the `latest` slot and the `history` vector.  The ready
flag and metrics registry are independent of the claims below. -/
structure LiveState where
  latest : Option WeatherPacket
  history : List WeatherPacket
deriving DecidableEq

/-- The initial live state built by `build_app`: no latest packet, empty
history. -/
def LiveState.empty : LiveState :=
  { latest := none, history := [] }

/-- `inject_packet` (weewx-cli/src/lib.rs): set `latest`, push onto
`history`, and drain any excess beyond `HISTORY_CAP` from the front. -/
def inject_packet (state : LiveState) (packet : WeatherPacket) : LiveState :=
  let latest := some packet
  let hist := state.history ++ [packet]
  let hist :=
    if HISTORY_CAP < hist.length then
      hist.drop (hist.length - HISTORY_CAP)
    else hist
  { latest := latest, history := hist }

/-- Rust enum `IngestError` (weex-ingest). -/
inductive IngestError where
  | InvalidPacket (detail : String) : IngestError
  | Timeout : IngestError
  | CommunicationError (detail : String) : IngestError
  | DriverError (detail : String) : IngestError
deriving DecidableEq

/-- Rust struct `SimulatorDriver` (weex-ingest/src/simulator.rs): the state
machine part (interval, active flag, base temperature). -/
structure SimulatorDriver where
  interval : ℕ
  active : Bool
  base_temp : ℚ
deriving DecidableEq

/-- `SimulatorDriver::new` (weex-ingest/src/simulator.rs). -/
def SimulatorDriver.new (interval : ℕ) : SimulatorDriver :=
  { interval := interval, active := false, base_temp := 20 }

/-- `SimulatorDriver::start` (weex-ingest/src/simulator.rs): fails with
`DriverError` if already active, else sets the active flag. -/
def SimulatorDriver.start (d : SimulatorDriver) :
    Except IngestError SimulatorDriver :=
  if d.active then Except.error (IngestError.DriverError "Driver already started")
  else Except.ok { d with active := true }

/-- `SimulatorDriver::stop` (weex-ingest/src/simulator.rs): fails with
`DriverError` if not active, else clears the active flag. -/
def SimulatorDriver.stop (d : SimulatorDriver) :
    Except IngestError SimulatorDriver :=
  if !d.active then Except.error (IngestError.DriverError "Driver not started")
  else Except.ok { d with active := false }

/-- `SimulatorDriver::is_active` (weex-ingest/src/simulator.rs). -/
def SimulatorDriver.is_active (d : SimulatorDriver) : Bool :=
  d.active

/-- Rust struct `InterceptorUdpDriver` (weex-ingest/src/interceptor.rs):
the state machine part.  The UDP socket is I/O; only its presence
(`Option<UdpSocket>` being `Some`) is modelled. -/
structure InterceptorUdpDriver where
  socket : Bool
  active : Bool
deriving DecidableEq

/-- `InterceptorUdpDriver::new` (weex-ingest/src/interceptor.rs). -/
def InterceptorUdpDriver.new : InterceptorUdpDriver :=
  { socket := false, active := false }

/-- `InterceptorUdpDriver::start` (weex-ingest/src/interceptor.rs): fails
with `DriverError` if already active; otherwise binds the socket (bind
failure is socket I/O, outside the embedding) and sets the active flag. -/
def InterceptorUdpDriver.start (d : InterceptorUdpDriver) :
    Except IngestError InterceptorUdpDriver :=
  if d.active then Except.error (IngestError.DriverError "already started")
  else Except.ok { d with socket := true, active := true }

/-- `InterceptorUdpDriver::stop` (weex-ingest/src/interceptor.rs):
unconditionally clears the active flag and drops the socket, always `Ok`. -/
def InterceptorUdpDriver.stop (d : InterceptorUdpDriver) :
    Except IngestError InterceptorUdpDriver :=
  Except.ok { d with active := false, socket := false }

/-- `InterceptorUdpDriver::is_active` (weex-ingest/src/interceptor.rs). -/
def InterceptorUdpDriver.is_active (d : InterceptorUdpDriver) : Bool :=
  d.active

/-- Numeric value of a decimal digit character. -/
def digitVal (c : Char) : Option ℕ :=
  if c.isDigit then some (c.toNat - 48) else none

/-- Parse a non-empty all-digit character list as a natural number. -/
def parseNatDigits (cs : List Char) : Option ℕ :=
  if cs.isEmpty then none
  else cs.foldlM (fun n c => (digitVal c).map (fun d => n * 10 + d)) 0

/-- Model of Rust `str::parse::<f64>()` restricted to the plain decimal
literals the upload vocabulary uses: optional sign, digits, optional
fractional part (scientific notation and `inf`/`NaN` spellings are not
exercised by the endpoints).  The parse is exact into `ℚ`. -/
def rustParseF64 (s : String) : Option ℚ :=
  match s.toList with
  | [] => none
  | cs =>
    let signed : ℚ × List Char :=
      match cs with
      | '-' :: r => (-1, r)
      | '+' :: r => (1, r)
      | _ => (1, cs)
    let sign := signed.1
    let cs2 := signed.2
    let intPart := cs2.takeWhile (fun c => c ≠ '.')
    let rest := cs2.dropWhile (fun c => c ≠ '.')
    match rest with
    | [] => (parseNatDigits intPart).map (fun n => sign * (n : ℚ))
    | _ :: frac =>
      match intPart, frac with
      | [], [] => none
      | [], f => (parseNatDigits f).map
          (fun m => sign * ((m : ℚ) / (10 : ℚ) ^ f.length))
      | ip, [] => (parseNatDigits ip).map (fun n => sign * (n : ℚ))
      | ip, f =>
          match parseNatDigits ip, parseNatDigits f with
          | some n, some m =>
              some (sign * ((n : ℚ) + (m : ℚ) / (10 : ℚ) ^ f.length))
          | _, _ => none

/-- Model of Rust `str::parse::<i64>()`: optional sign followed by digits
(overflow is not modelled; the claims use small values). -/
def rustParseI64 (s : String) : Option ℤ :=
  match s.toList with
  | '-' :: r => (parseNatDigits r).map (fun n => -(n : ℤ))
  | '+' :: r => (parseNatDigits r).map (fun n => (n : ℤ))
  | cs => (parseNatDigits cs).map (fun n => (n : ℤ))

/-- Association-list insert with `HashMap::insert` overwrite semantics. -/
def insertObs : List (String × ObservationValue) → String → ObservationValue →
    List (String × ObservationValue)
  | [], k, v => [(k, v)]
  | (k1, v1) :: rest, k, v =>
      if k1 = k then (k, v) :: rest
      else (k1, v1) :: insertObs rest k v

/-- One `if let Some(x) = parse_f64(param) { obs.insert(key, Float(conv x)) }`
step of the upload handlers (weewx-cli/src/lib.rs). -/
def applyF64 (q : List (String × String))
    (obs : List (String × ObservationValue)) (param key : String)
    (conv : ℚ → ℚ) : List (String × ObservationValue) :=
  match (lookupKey q param).bind rustParseF64 with
  | some x => insertObs obs key (ObservationValue.Float (F64.finite (conv x)))
  | none => obs

/-- One `if let Some(x) = parse_i64(param) { obs.insert(key, Integer(x)) }`
step of the upload handlers (weewx-cli/src/lib.rs). -/
def applyI64 (q : List (String × String))
    (obs : List (String × ObservationValue)) (param key : String) :
    List (String × ObservationValue) :=
  match (lookupKey q param).bind rustParseI64 with
  | some x => insertObs obs key (ObservationValue.Integer x)
  | none => obs

/-- Observation map built by the GET `/ingest/ecowitt` handler
`ingest_ecowitt` (weewx-cli/src/lib.rs) from the query parameters, with the
inserts in source order.  The handler additionally takes `station` from
`stationtype` and derives `dateTime` from `dateutc` or the wall clock; the
wall-clock part is I/O and outside this pure fragment. -/
def ingest_ecowitt_obs (q : List (String × String)) :
    List (String × ObservationValue) :=
  let obs : List (String × ObservationValue) := []
  let obs := applyF64 q obs "tempf" "outTemp" (fun tf => (tf - 32) * (5 / 9))
  let obs := applyI64 q obs "humidity" "humidity"
  let obs := applyF64 q obs "baromin" "barometer" (fun x => x * 33.8638866667)
  let obs := applyF64 q obs "windspeedmph" "windSpeed" (fun x => x * 0.44704)
  let obs := applyF64 q obs "windgustmph" "windGust" (fun x => x * 0.44704)
  let obs := applyI64 q obs "winddir" "windDir"
  let obs := applyF64 q obs "rainin" "rainRate" (fun x => x * 25.4)
  let obs := applyF64 q obs "dailyrainin" "dailyRain" (fun x => x * 25.4)
  let obs := applyF64 q obs "solarradiation" "radiation" (fun x => x)
  let obs := applyF64 q obs "uv" "uv" (fun x => x)
  obs

/-- Observation map built by the POST form handler `ingest_post`
(weewx-cli/src/lib.rs); identical to the GET handler except that it also
handles `baromabsin` (to `barometerAbs`) and `baromrelin` (to `barometer`,
inserted after and therefore overriding `baromin`). -/
def ingest_post_obs (q : List (String × String)) :
    List (String × ObservationValue) :=
  let obs : List (String × ObservationValue) := []
  let obs := applyF64 q obs "tempf" "outTemp" (fun tf => (tf - 32) * (5 / 9))
  let obs := applyI64 q obs "humidity" "humidity"
  let obs := applyF64 q obs "baromin" "barometer" (fun x => x * 33.8638866667)
  let obs := applyF64 q obs "baromabsin" "barometerAbs" (fun x => x * 33.8638866667)
  let obs := applyF64 q obs "baromrelin" "barometer" (fun x => x * 33.8638866667)
  let obs := applyF64 q obs "windspeedmph" "windSpeed" (fun x => x * 0.44704)
  let obs := applyF64 q obs "windgustmph" "windGust" (fun x => x * 0.44704)
  let obs := applyI64 q obs "winddir" "windDir"
  let obs := applyF64 q obs "rainin" "rainRate" (fun x => x * 25.4)
  let obs := applyF64 q obs "dailyrainin" "dailyRain" (fun x => x * 25.4)
  let obs := applyF64 q obs "solarradiation" "radiation" (fun x => x)
  let obs := applyF64 q obs "uv" "uv" (fun x => x)
  obs

set_option maxRecDepth 8000

/- ### Helper lemmas -/

theorem fMin_ne_nan (x y : F64) (h : x ≠ F64.nan) : fMin x y ≠ F64.nan := by
  cases x <;> cases y <;> simp_all [fMin]

theorem fMax_ne_nan (x y : F64) (h : x ≠ F64.nan) : fMax x y ≠ F64.nan := by
  cases x <;> cases y <;> simp_all [fMax]

theorem fMin_nan_right (x : F64) (h : x ≠ F64.nan) : fMin x F64.nan = x := by
  cases x <;> simp_all [fMin]

theorem fMax_nan_right (x : F64) (h : x ≠ F64.nan) : fMax x F64.nan = x := by
  cases x <;> simp_all [fMax]

theorem foldl_fMin_ne_nan (xs : List F64) (acc : F64) (h : acc ≠ F64.nan) :
    xs.foldl fMin acc ≠ F64.nan := by
  induction xs generalizing acc with
  | nil => exact h
  | cons x xs ih => exact ih (fMin acc x) (fMin_ne_nan acc x h)

theorem foldl_fMax_ne_nan (xs : List F64) (acc : F64) (h : acc ≠ F64.nan) :
    xs.foldl fMax acc ≠ F64.nan := by
  induction xs generalizing acc with
  | nil => exact h
  | cons x xs ih => exact ih (fMax acc x) (fMax_ne_nan acc x h)

theorem foldl_fMin_allnan (xs : List F64) (acc : F64)
    (hall : ∀ x ∈ xs, x = F64.nan) (h : acc ≠ F64.nan) :
    xs.foldl fMin acc = acc := by
  induction xs generalizing acc with
  | nil => rfl
  | cons x xs ih =>
      have hx : x = F64.nan := hall x (List.mem_cons_self x xs)
      have hrest : ∀ y ∈ xs, y = F64.nan := fun y hy =>
        hall y (List.mem_cons_of_mem x hy)
      rw [List.foldl_cons, hx, fMin_nan_right acc h]
      exact ih acc hrest h

theorem foldl_fMax_allnan (xs : List F64) (acc : F64)
    (hall : ∀ x ∈ xs, x = F64.nan) (h : acc ≠ F64.nan) :
    xs.foldl fMax acc = acc := by
  induction xs generalizing acc with
  | nil => rfl
  | cons x xs ih =>
      have hx : x = F64.nan := hall x (List.mem_cons_self x xs)
      have hrest : ∀ y ∈ xs, y = F64.nan := fun y hy =>
        hall y (List.mem_cons_of_mem x hy)
      rw [List.foldl_cons, hx, fMax_nan_right acc h]
      exact ih acc hrest h

/- ### C3 -/

/-- C3: for every buffer with positive interval `I` and every timestamp
`t ≥ 0`, `calculate_interval_end t = ((t/I)+1)*I` with truncating integer
division, the result strictly exceeds `t`, and every exact multiple `k*I`
(`k ≥ 0`) is mapped to `(k+1)*I`. -/
theorem C3_calculate_interval_end (b : PacketBuffer) (t k : ℤ)
    (ht : 0 ≤ t) (hI : 0 < b.interval) (_hk : 0 ≤ k) :
    b.calculate_interval_end t = (Int.tdiv t b.interval + 1) * b.interval
    ∧ t < b.calculate_interval_end t
    ∧ b.calculate_interval_end (k * b.interval) = (k + 1) * b.interval := by
  refine ⟨rfl, ?_, ?_⟩
  · unfold PacketBuffer.calculate_interval_end
    rw [Int.tdiv_eq_ediv ht (le_of_lt hI)]
    exact Int.lt_ediv_add_one_mul_self t hI
  · unfold PacketBuffer.calculate_interval_end
    rw [Int.mul_tdiv_cancel k (ne_of_gt hI)]

/-- Witness for C3 at `t = 100`, `k = 2` on a buffer with interval 300. -/
theorem C3_calculate_interval_end_witness :
    (PacketBuffer.new 300).calculate_interval_end 100
        = (Int.tdiv 100 (PacketBuffer.new 300).interval + 1) * (PacketBuffer.new 300).interval
    ∧ (100 : ℤ) < (PacketBuffer.new 300).calculate_interval_end 100
    ∧ (PacketBuffer.new 300).calculate_interval_end (2 * (PacketBuffer.new 300).interval)
        = (2 + 1) * (PacketBuffer.new 300).interval :=
  C3_calculate_interval_end (PacketBuffer.new 300) 100 2
    (by decide) (by decide) (by decide)

/- ### C4 -/

/-- C4 counterexample: a freshly constructed (hence Idle) `SimulatorDriver`
does not treat `stop` as a no-op success: it fails with `DriverError`,
while the INTERCEPTOR UDP driver's `stop` succeeds from Idle, so the
claimed uniform no-op-success behaviour does not hold across variants. -/
theorem C4_counterexample :
    (SimulatorDriver.new 1).is_active = false
    ∧ (SimulatorDriver.new 1).stop
        = Except.error (IngestError.DriverError "Driver not started")
    ∧ InterceptorUdpDriver.new.is_active = false
    ∧ InterceptorUdpDriver.new.stop = Except.ok InterceptorUdpDriver.new := by
  refine ⟨rfl, rfl, rfl, rfl⟩

/-- C4 (amended): `stop` transitions Active to Idle on both variants, but
idempotence to Idle is not uniform: `InterceptorUdpDriver::stop` is an
unconditional no-op success, while `SimulatorDriver::stop` on an Idle
driver fails with `DriverError("Driver not started")`. -/
theorem C4_stop_amended (s : SimulatorDriver) (hs : s.active = true) :
    s.stop = Except.ok { s with active := false }
    ∧ ({ s with active := false } : SimulatorDriver).stop
        = Except.error (IngestError.DriverError "Driver not started")
    ∧ (∀ d : InterceptorUdpDriver,
        d.stop = Except.ok { d with active := false, socket := false }) := by
  refine ⟨?_, ?_, fun d => rfl⟩
  · unfold SimulatorDriver.stop
    rw [hs]
    rfl
  · rfl

/-- Witness for C4 (amended) at a concrete Active simulator driver. -/
theorem C4_stop_amended_witness :
    ({ interval := 1, active := true, base_temp := 20 } : SimulatorDriver).stop
        = Except.ok { interval := 1, active := false, base_temp := 20 }
    ∧ ({ interval := 1, active := false, base_temp := 20 } : SimulatorDriver).stop
        = Except.error (IngestError.DriverError "Driver not started")
    ∧ (∀ d : InterceptorUdpDriver,
        d.stop = Except.ok { d with active := false, socket := false }) :=
  C4_stop_amended { interval := 1, active := true, base_temp := 20 } rfl

/- ### C6 -/

/-- A packet with a negative timestamp, used to refute C6. -/
def pNegative : WeatherPacket :=
  { date_time := -5, station := none, interval := none,
    observations := [("outTemp", ObservationValue.Float (F64.finite 25))] }

/-- C6 counterexample: a packet with `dateTime = -5` is accepted both by
`PacketBuffer::add` on a fresh buffer and by
`IntervalAggregator::add_packet`, and ends up stored in the aggregation
buffer, refuting the claim that negative-`dateTime` packets are never
accepted. -/
theorem C6_counterexample :
    pNegative.date_time < 0
    ∧ ((PacketBuffer.new 300).add pNegative).1 = Except.ok none
    ∧ ((PacketBuffer.new 300).add pNegative).2.packets = [pNegative]
    ∧ (((IntervalAggregator.new 300 16 { rows := [] }).add_packet
          pNegative).map (fun a => a.buffer.packets))
        = Except.ok [pNegative] := by
  refine ⟨by decide, ?_, ?_, ?_⟩ <;> with_unfolding_all decide

/-- C6 (amended): the aggregation buffer performs no `dateTime` validation:
every packet offered to a buffer below its `max_packets` cap is appended,
regardless of the sign of its timestamp. -/
theorem C6_accepts_any_datetime (b : PacketBuffer) (p : WeatherPacket)
    (h : b.packets.length < b.max_packets) :
    ((b.add p).1).isOk = true
    ∧ (b.add p).2.packets = b.packets ++ [p] := by
  unfold PacketBuffer.add
  rw [if_neg (by omega)]
  by_cases hle : p.date_time ≤
      (match b.current_interval_end with
       | some e => e
       | none => b.calculate_interval_end p.date_time)
  · rw [if_pos hle]
    exact ⟨rfl, rfl⟩
  · rw [if_neg hle]
    exact ⟨rfl, rfl⟩

/-- Witness for C6 (amended): the negative-timestamp packet is accepted by
a fresh buffer. -/
theorem C6_accepts_any_datetime_witness :
    (((PacketBuffer.new 300).add pNegative).1).isOk = true
    ∧ ((PacketBuffer.new 300).add pNegative).2.packets
        = (PacketBuffer.new 300).packets ++ [pNegative] :=
  C6_accepts_any_datetime (PacketBuffer.new 300) pNegative (by decide)

/- ### C9 -/

/-- C9: for a buffer created with interval `I ≥ 1` the cap is
`max(2·I, 100)`; `add` fails with `BufferOverflow` exactly when the buffer
already holds at least `max_packets` packets (the cap is checked before
anything else), the failure leaves the buffer unchanged, a non-full buffer
accepts the packet, and `add` never grows the buffer beyond the cap (so a
buffer reachable from `new` holds exactly `max_packets` packets when the
failure fires). -/
theorem C9_buffer_overflow (I : ℤ) (hI : 1 ≤ I)
    (b : PacketBuffer) (p : WeatherPacket) :
    (PacketBuffer.new I).max_packets = ((2 * I).toNat).max 100
    ∧ ((b.add p).1 = Except.error ArchiveError.BufferOverflow
        ↔ b.max_packets ≤ b.packets.length)
    ∧ (b.max_packets ≤ b.packets.length → (b.add p).2 = b)
    ∧ (b.packets.length < b.max_packets → ((b.add p).1).isOk = true)
    ∧ (b.packets.length ≤ b.max_packets →
        (b.add p).2.packets.length ≤ b.max_packets) := by
  refine ⟨?_, ?_, ?_, ?_, ?_⟩
  · show (I.toNat * 2).max 100 = ((2 * I).toNat).max 100
    have h2 : (2 * I).toNat = I.toNat * 2 := by omega
    rw [h2]
  · unfold PacketBuffer.add
    by_cases h : b.max_packets ≤ b.packets.length
    · rw [if_pos h]
      simpa using h
    · rw [if_neg h]
      simp only [h, iff_false]
      by_cases hle : p.date_time ≤
          (match b.current_interval_end with
           | some e => e
           | none => b.calculate_interval_end p.date_time)
      · rw [if_pos hle]
        simp
      · rw [if_neg hle]
        simp
  · intro h
    unfold PacketBuffer.add
    rw [if_pos h]
  · intro h
    unfold PacketBuffer.add
    rw [if_neg (by omega)]
    by_cases hle : p.date_time ≤
        (match b.current_interval_end with
         | some e => e
         | none => b.calculate_interval_end p.date_time)
    · rw [if_pos hle]
      rfl
    · rw [if_neg hle]
      rfl
  · intro h
    unfold PacketBuffer.add
    by_cases hfull : b.max_packets ≤ b.packets.length
    · rw [if_pos hfull]
      exact h
    · rw [if_neg hfull]
      by_cases hle : p.date_time ≤
          (match b.current_interval_end with
           | some e => e
           | none => b.calculate_interval_end p.date_time)
      · rw [if_pos hle]
        simp only [List.length_append, List.length_singleton]
        omega
      · rw [if_neg hle]
        simp only [List.length_append, List.length_singleton]
        omega

/-- Witness for C9 at `I = 1` (cap 100), an empty fresh buffer and a
concrete packet. -/
theorem C9_buffer_overflow_witness :
    (PacketBuffer.new 1).max_packets = ((2 * 1 : ℤ).toNat).max 100
    ∧ (((PacketBuffer.new 1).add pNegative).1
          = Except.error ArchiveError.BufferOverflow
        ↔ (PacketBuffer.new 1).max_packets ≤ (PacketBuffer.new 1).packets.length)
    ∧ ((PacketBuffer.new 1).max_packets ≤ (PacketBuffer.new 1).packets.length →
        ((PacketBuffer.new 1).add pNegative).2 = PacketBuffer.new 1)
    ∧ ((PacketBuffer.new 1).packets.length < (PacketBuffer.new 1).max_packets →
        ((((PacketBuffer.new 1).add pNegative).1)).isOk = true)
    ∧ ((PacketBuffer.new 1).packets.length ≤ (PacketBuffer.new 1).max_packets →
        (((PacketBuffer.new 1).add pNegative).2).packets.length
          ≤ (PacketBuffer.new 1).max_packets) :=
  C9_buffer_overflow 1 (by decide) (PacketBuffer.new 1) pNegative

/- ### C7 -/

theorem foldl_accumulator_add (xs : List F64) (a : Accumulator) :
    xs.foldl Accumulator.add a
      = { observations := a.observations ++ xs,
          aggregate_type := a.aggregate_type } := by
  induction xs generalizing a with
  | nil => simp
  | cons x xs ih =>
      rw [List.foldl_cons, ih]
      simp [Accumulator.add]

/-- C7: an accumulator built by adding `xs` in order holds exactly `xs`;
`result` is `none` iff nothing was added; and for a non-empty `xs` the
result is, per kind: the in-order IEEE sum (`Sum`), sum over count (`Avg`),
the count as a float (`Count`), the first/last value (`First`/`Last`), and
the `fmin`/`fmax` folds seeded with `+∞`/`-∞` (`Min`/`Max`), whose result
is never NaN — a NaN input never wins. -/
theorem C7_accumulator_semantics (t : AggregateType) (xs : List F64) :
    xs.foldl Accumulator.add (Accumulator.new t) = Accumulator.mk xs t
    ∧ ((Accumulator.mk xs t).result = none ↔ xs = [])
    ∧ (Accumulator.mk xs AggregateType.Sum).result
        = (if xs = [] then none else some (xs.foldl fAdd (F64.finite 0)))
    ∧ (Accumulator.mk xs AggregateType.Avg).result
        = (if xs = [] then none
           else some (fDiv (xs.foldl fAdd (F64.finite 0))
                           (F64.finite (xs.length : ℚ))))
    ∧ (Accumulator.mk xs AggregateType.Count).result
        = (if xs = [] then none else some (F64.finite (xs.length : ℚ)))
    ∧ (Accumulator.mk xs AggregateType.First).result = xs.head?
    ∧ (Accumulator.mk xs AggregateType.Last).result = xs.getLast?
    ∧ (Accumulator.mk xs AggregateType.Min).result
        = (if xs = [] then none else some (xs.foldl fMin F64.inf))
    ∧ (Accumulator.mk xs AggregateType.Max).result
        = (if xs = [] then none else some (xs.foldl fMax F64.neginf))
    ∧ (∀ v, (Accumulator.mk xs AggregateType.Min).result = some v → v ≠ F64.nan)
    ∧ (∀ v, (Accumulator.mk xs AggregateType.Max).result = some v → v ≠ F64.nan) := by
  refine ⟨?_, ?_, ?_, ?_, ?_, ?_, ?_, ?_, ?_, ?_, ?_⟩
  · rw [foldl_accumulator_add]
    rfl
  · cases xs with
    | nil => cases t <;> simp [Accumulator.result]
    | cons x l => cases t <;> simp [Accumulator.result]
  · cases xs <;> simp [Accumulator.result]
  · cases xs <;> simp [Accumulator.result]
  · cases xs <;> simp [Accumulator.result]
  · cases xs <;> simp [Accumulator.result]
  · cases xs <;> simp [Accumulator.result]
  · cases xs <;> simp [Accumulator.result]
  · cases xs <;> simp [Accumulator.result]
  · intro v hv
    cases xs with
    | nil => simp [Accumulator.result] at hv
    | cons x l =>
        simp [Accumulator.result] at hv
        rw [← hv]
        exact foldl_fMin_ne_nan (x :: l) F64.inf (by simp)
  · intro v hv
    cases xs with
    | nil => simp [Accumulator.result] at hv
    | cons x l =>
        simp [Accumulator.result] at hv
        rw [← hv]
        exact foldl_fMax_ne_nan (x :: l) F64.neginf (by simp)

/-- Witness for C7: the `Min` accumulator over the single added value NaN
has a `some` result, and the theorem's NaN-never-wins implication applied
there. -/
theorem C7_accumulator_semantics_witness : F64.inf ≠ F64.nan :=
  (C7_accumulator_semantics AggregateType.Min
    [F64.nan]).2.2.2.2.2.2.2.2.2.1 F64.inf (by with_unfolding_all decide)

/- ### C10 -/

/-- C10: a `Min` accumulator all of whose added values are NaN returns
`some +∞` (the fold seed escapes), a `Max` accumulator symmetrically
returns `some -∞`; and whenever at least one value was added, the
`Min`/`Max` result is `some` and never NaN. -/
theorem C10_allnan_min_max (xs : List F64) (h1 : xs ≠ [])
    (h2 : ∀ x ∈ xs, x = F64.nan) :
    (Accumulator.mk xs AggregateType.Min).result = some F64.inf
    ∧ (Accumulator.mk xs AggregateType.Max).result = some F64.neginf
    ∧ (∀ ys : List F64, ys ≠ [] →
        ((Accumulator.mk ys AggregateType.Min).result.isSome = true
         ∧ (Accumulator.mk ys AggregateType.Min).result ≠ some F64.nan
         ∧ (Accumulator.mk ys AggregateType.Max).result.isSome = true
         ∧ (Accumulator.mk ys AggregateType.Max).result ≠ some F64.nan)) := by
  refine ⟨?_, ?_, ?_⟩
  · cases xs with
    | nil => exact absurd rfl h1
    | cons x l =>
        simp only [Accumulator.result, List.isEmpty_cons, Bool.false_eq_true,
          if_false]
        rw [foldl_fMin_allnan (x :: l) F64.inf h2 (by simp)]
  · cases xs with
    | nil => exact absurd rfl h1
    | cons x l =>
        simp only [Accumulator.result, List.isEmpty_cons, Bool.false_eq_true,
          if_false]
        rw [foldl_fMax_allnan (x :: l) F64.neginf h2 (by simp)]
  · intro ys hys
    cases ys with
    | nil => exact absurd rfl hys
    | cons y l =>
        refine ⟨by simp [Accumulator.result], ?_, by simp [Accumulator.result], ?_⟩
        · intro hcon
          simp [Accumulator.result] at hcon
          exact foldl_fMin_ne_nan (y :: l) F64.inf (by simp) hcon
        · intro hcon
          simp [Accumulator.result] at hcon
          exact foldl_fMax_ne_nan (y :: l) F64.neginf (by simp) hcon

/-- Witness for C10 at the single-element all-NaN list. -/
theorem C10_allnan_min_max_witness :
    (Accumulator.mk [F64.nan] AggregateType.Min).result = some F64.inf :=
  (C10_allnan_min_max [F64.nan] (by decide) (by decide)).1

/- ### C8 -/

/-- The three-packet aggregation scenario from the claim: observations
`rain = {1,2,3}`, `outTemp = {10,20,30}`, `windGust = {5,15,10}`. -/
def aggScenarioPackets : List WeatherPacket :=
  [ { date_time := 1, station := none, interval := none,
      observations := [("rain", ObservationValue.Float (F64.finite 1)),
                       ("outTemp", ObservationValue.Float (F64.finite 10)),
                       ("windGust", ObservationValue.Float (F64.finite 5))] },
    { date_time := 2, station := none, interval := none,
      observations := [("rain", ObservationValue.Float (F64.finite 2)),
                       ("outTemp", ObservationValue.Float (F64.finite 20)),
                       ("windGust", ObservationValue.Float (F64.finite 15))] },
    { date_time := 3, station := none, interval := none,
      observations := [("rain", ObservationValue.Float (F64.finite 3)),
                       ("outTemp", ObservationValue.Float (F64.finite 30)),
                       ("windGust", ObservationValue.Float (F64.finite 10))] } ]

/-- C8: the default-aggregate table routes each named observation as
claimed and any other key to `Last`; non-numeric observation values are
skipped silently; and the three-packet scenario aggregates to
`rain = 6 (Sum)`, `outTemp = 20 (Avg)`, `windGust = 15 (Max)`. -/
theorem C8_aggregate_packets (s : String)
    (h : s ∉ ["rain", "outTemp", "inTemp", "dewpoint", "heatindex",
              "windchill", "barometer", "pressure", "altimeter", "windSpeed",
              "outHumidity", "inHumidity", "radiation", "UV", "windGust",
              "windDir", "windGustDir"]) :
    default_aggregate_type s = AggregateType.Last
    ∧ default_aggregate_type "rain" = AggregateType.Sum
    ∧ default_aggregate_type "outTemp" = AggregateType.Avg
    ∧ default_aggregate_type "inTemp" = AggregateType.Avg
    ∧ default_aggregate_type "dewpoint" = AggregateType.Avg
    ∧ default_aggregate_type "heatindex" = AggregateType.Avg
    ∧ default_aggregate_type "windchill" = AggregateType.Avg
    ∧ default_aggregate_type "barometer" = AggregateType.Avg
    ∧ default_aggregate_type "pressure" = AggregateType.Avg
    ∧ default_aggregate_type "altimeter" = AggregateType.Avg
    ∧ default_aggregate_type "windSpeed" = AggregateType.Avg
    ∧ default_aggregate_type "outHumidity" = AggregateType.Avg
    ∧ default_aggregate_type "inHumidity" = AggregateType.Avg
    ∧ default_aggregate_type "radiation" = AggregateType.Avg
    ∧ default_aggregate_type "UV" = AggregateType.Avg
    ∧ default_aggregate_type "windGust" = AggregateType.Max
    ∧ default_aggregate_type "windDir" = AggregateType.Last
    ∧ default_aggregate_type "windGustDir" = AggregateType.Last
    ∧ aggregate_packets aggScenarioPackets
        = [("rain", (AggregateType.Sum, some (F64.finite 6))),
           ("outTemp", (AggregateType.Avg, some (F64.finite 20))),
           ("windGust", (AggregateType.Max, some (F64.finite 15)))]
    ∧ aggregate_packets
        [ { date_time := 1, station := none, interval := none,
            observations := [("outTemp", ObservationValue.Str "bad"),
                             ("rain", ObservationValue.Null),
                             ("windGust", ObservationValue.Float (F64.finite 5))] } ]
        = [("windGust", (AggregateType.Max, some (F64.finite 5)))] := by
  simp only [List.mem_cons, List.not_mem_nil, or_false, not_or] at h
  obtain ⟨h1, h2, h3, h4, h5, h6, h7, h8, h9, h10, h11, h12, h13, h14, h15,
    h16, h17⟩ := h
  refine ⟨?_, ?_⟩
  · unfold default_aggregate_type
    simp only [h1, h2, h3, h4, h5, h6, h7, h8, h9, h10, h11, h12, h13, h14,
      h15, h16, h17, if_false, false_or, or_self, or_false]
  · refine ⟨?_, ?_, ?_, ?_, ?_, ?_, ?_, ?_, ?_, ?_, ?_, ?_, ?_, ?_, ?_, ?_,
      ?_, ?_, ?_⟩ <;> with_unfolding_all decide

/-- Witness for C8 at the unlisted key `"fooBar"`. -/
theorem C8_aggregate_packets_witness :
    default_aggregate_type "fooBar" = AggregateType.Last :=
  (C8_aggregate_packets "fooBar" (by decide)).1

/- ### C2 -/

theorem drop_cap_append {α : Type} (A r : List α) (n : ℕ) :
    ((A.drop (A.length - n)) ++ r).drop
        (((A.drop (A.length - n)) ++ r).length - n)
      = (A ++ r).drop ((A ++ r).length - n) := by
  have hk : A.length - n ≤ A.length := Nat.sub_le _ _
  rw [← List.drop_append_of_le_length hk, List.drop_drop]
  congr 1
  simp only [List.length_append, List.length_drop]
  omega

theorem inject_packet_history (s : LiveState) (p : WeatherPacket) :
    (inject_packet s p).history
      = (s.history ++ [p]).drop ((s.history ++ [p]).length - HISTORY_CAP) := by
  show (if HISTORY_CAP < (s.history ++ [p]).length then
          (s.history ++ [p]).drop ((s.history ++ [p]).length - HISTORY_CAP)
        else s.history ++ [p])
      = (s.history ++ [p]).drop ((s.history ++ [p]).length - HISTORY_CAP)
  by_cases h : HISTORY_CAP < (s.history ++ [p]).length
  · rw [if_pos h]
  · rw [if_neg h]
    rw [Nat.sub_eq_zero_of_le (Nat.le_of_not_lt h), List.drop_zero]

theorem inject_packet_history_le (s : LiveState) (p : WeatherPacket) :
    (inject_packet s p).history.length ≤ HISTORY_CAP := by
  rw [inject_packet_history]
  simp only [List.length_drop]
  omega

theorem foldl_inject_history (P : List WeatherPacket) (s : LiveState)
    (hs : s.history.length ≤ HISTORY_CAP) :
    (P.foldl inject_packet s).history
      = (s.history ++ P).drop ((s.history ++ P).length - HISTORY_CAP) := by
  induction P generalizing s with
  | nil =>
      simp only [List.foldl_nil, List.append_nil]
      rw [Nat.sub_eq_zero_of_le hs, List.drop_zero]
  | cons p ps ih =>
      rw [List.foldl_cons, ih (inject_packet s p) (inject_packet_history_le s p),
        inject_packet_history]
      have hK := drop_cap_append (s.history ++ [p]) ps HISTORY_CAP
      rw [hK, List.append_assoc]
      rfl

theorem foldl_inject_latest (P : List WeatherPacket) (s : LiveState) :
    (P.foldl inject_packet s).latest = P.getLast?.or s.latest := by
  induction P generalizing s with
  | nil => simp
  | cons p ps ih =>
      rw [List.foldl_cons, ih]
      cases hps : ps.getLast? with
      | some x =>
          have : (p :: ps).getLast? = some x := by
            cases ps with
            | nil => simp at hps
            | cons q l => rw [List.getLast?_cons_cons, hps]
          rw [this]
          simp [Option.or]
      | none =>
          have hnil : ps = [] := List.getLast?_eq_none_iff.mp hps
          subst hnil
          simp [inject_packet, Option.or]

/-- C2: feeding any finite packet sequence `P` one at a time through
`inject_packet` starting from the empty live state leaves a history of
length `min |P| 1000` consisting of the last `min |P| 1000` packets of `P`
in arrival order (oldest evicted first), with the `latest` slot holding the
most recently injected packet. -/
theorem C2_inject_packet_history (P : List WeatherPacket) :
    (P.foldl inject_packet LiveState.empty).history.length
        = min P.length HISTORY_CAP
    ∧ (P.foldl inject_packet LiveState.empty).history
        = P.drop (P.length - HISTORY_CAP)
    ∧ (P.foldl inject_packet LiveState.empty).latest = P.getLast? := by
  have hist := foldl_inject_history P LiveState.empty (by simp [LiveState.empty])
  rw [show LiveState.empty.history = [] from rfl, List.nil_append] at hist
  refine ⟨?_, hist, ?_⟩
  · rw [hist]
    simp only [List.length_drop]
    omega
  · rw [foldl_inject_latest, show LiveState.empty.latest = none from rfl]
    cases P.getLast? <;> rfl

/- ### C5 -/

theorem lookupKey_insertObs (m : List (String × ObservationValue))
    (kIns kGet : String) (v : ObservationValue) :
    lookupKey (insertObs m kIns v) kGet
      = if kIns = kGet then some v else lookupKey m kGet := by
  induction m with
  | nil => simp [insertObs, lookupKey]
  | cons kv rest ih =>
      obtain ⟨k1, v1⟩ := kv
      by_cases h1 : k1 = kIns
      · subst h1
        rw [show insertObs ((k1, v1) :: rest) k1 v = (k1, v) :: rest from by
          simp [insertObs]]
        by_cases h2 : k1 = kGet
        · simp [lookupKey, h2]
        · simp [lookupKey, h2]
      · rw [show insertObs ((k1, v1) :: rest) kIns v
            = (k1, v1) :: insertObs rest kIns v from by simp [insertObs, h1]]
        by_cases h2 : k1 = kGet
        · subst h2
          have hne : kIns ≠ k1 := fun hc => h1 hc.symm
          simp [lookupKey, hne]
        · simp [lookupKey, h2, ih]

theorem lookupKey_applyF64_ne (q : List (String × String))
    (m : List (String × ObservationValue)) (param key kGet : String)
    (conv : ℚ → ℚ) (h : key ≠ kGet) :
    lookupKey (applyF64 q m param key conv) kGet = lookupKey m kGet := by
  unfold applyF64
  cases (lookupKey q param).bind rustParseF64 with
  | none => rfl
  | some x => rw [lookupKey_insertObs, if_neg h]

theorem lookupKey_applyI64_ne (q : List (String × String))
    (m : List (String × ObservationValue)) (param key kGet : String)
    (h : key ≠ kGet) :
    lookupKey (applyI64 q m param key) kGet = lookupKey m kGet := by
  unfold applyI64
  cases (lookupKey q param).bind rustParseI64 with
  | none => rfl
  | some x => rw [lookupKey_insertObs, if_neg h]

theorem lookupKey_applyF64_self (q : List (String × String))
    (m : List (String × ObservationValue)) (param key : String)
    (conv : ℚ → ℚ) :
    lookupKey (applyF64 q m param key conv) key
      = (match (lookupKey q param).bind rustParseF64 with
         | some x => some (ObservationValue.Float (F64.finite (conv x)))
         | none => lookupKey m key) := by
  unfold applyF64
  cases (lookupKey q param).bind rustParseF64 with
  | none => rfl
  | some x => rw [lookupKey_insertObs, if_pos rfl]

/-- C5 counterexample: a request carrying only `baromrelin` and
`baromabsin` produces no `barometer`/`barometerAbs` observation at all
through the GET query-parameter endpoint, while the POST form endpoint maps
both; the two endpoint shapes do not translate the same vocabulary. -/
theorem C5_counterexample :
    lookupKey (ingest_ecowitt_obs
        [("baromrelin", "29.92"), ("baromabsin", "29.92")]) "barometer" = none
    ∧ lookupKey (ingest_ecowitt_obs
        [("baromrelin", "29.92"), ("baromabsin", "29.92")]) "barometerAbs" = none
    ∧ lookupKey (ingest_post_obs
        [("baromrelin", "29.92"), ("baromabsin", "29.92")]) "barometer"
        = some (ObservationValue.Float
            (F64.finite ((2992 / 100) * 33.8638866667)))
    ∧ lookupKey (ingest_post_obs
        [("baromrelin", "29.92"), ("baromabsin", "29.92")]) "barometerAbs"
        = some (ObservationValue.Float
            (F64.finite ((2992 / 100) * 33.8638866667))) := by
  refine ⟨?_, ?_, ?_, ?_⟩
  · with_unfolding_all decide
  · with_unfolding_all decide
  · simp only [ingest_post_obs]
    rw [lookupKey_applyF64_ne _ _ _ _ _ _ (by decide),
      lookupKey_applyF64_ne _ _ _ _ _ _ (by decide),
      lookupKey_applyF64_ne _ _ _ _ _ _ (by decide),
      lookupKey_applyF64_ne _ _ _ _ _ _ (by decide),
      lookupKey_applyI64_ne _ _ _ _ _ (by decide),
      lookupKey_applyF64_ne _ _ _ _ _ _ (by decide),
      lookupKey_applyF64_ne _ _ _ _ _ _ (by decide),
      lookupKey_applyF64_self,
      show (lookupKey [("baromrelin", "29.92"), ("baromabsin", "29.92")]
          "baromrelin").bind rustParseF64 = some (2992 / 100) from by
        with_unfolding_all decide]
  · simp only [ingest_post_obs]
    rw [lookupKey_applyF64_ne _ _ _ _ _ _ (by decide),
      lookupKey_applyF64_ne _ _ _ _ _ _ (by decide),
      lookupKey_applyF64_ne _ _ _ _ _ _ (by decide),
      lookupKey_applyF64_ne _ _ _ _ _ _ (by decide),
      lookupKey_applyI64_ne _ _ _ _ _ (by decide),
      lookupKey_applyF64_ne _ _ _ _ _ _ (by decide),
      lookupKey_applyF64_ne _ _ _ _ _ _ (by decide),
      lookupKey_applyF64_ne _ _ _ _ _ _ (by decide),
      lookupKey_applyF64_self,
      show (lookupKey [("baromrelin", "29.92"), ("baromabsin", "29.92")]
          "baromabsin").bind rustParseF64 = some (2992 / 100) from by
        with_unfolding_all decide]

/-- C5 (amended): on the POST form endpoint `baromin` and `baromrelin` map
to `barometer` (with `baromrelin` taking precedence) and `baromabsin` maps
to `barometerAbs`, all in hPa via `·33.8638866667`; the GET query endpoint
translates only `baromin` to `barometer` and ignores `baromrelin` and
`baromabsin` entirely. -/
theorem C5_param_translation (q : List (String × String)) :
    lookupKey (ingest_ecowitt_obs q) "barometer"
      = ((lookupKey q "baromin").bind rustParseF64).map
          (fun x => ObservationValue.Float (F64.finite (x * 33.8638866667)))
    ∧ lookupKey (ingest_ecowitt_obs q) "barometerAbs" = none
    ∧ lookupKey (ingest_post_obs q) "barometerAbs"
      = ((lookupKey q "baromabsin").bind rustParseF64).map
          (fun x => ObservationValue.Float (F64.finite (x * 33.8638866667)))
    ∧ lookupKey (ingest_post_obs q) "barometer"
      = (match (lookupKey q "baromrelin").bind rustParseF64 with
         | some x => some (ObservationValue.Float (F64.finite (x * 33.8638866667)))
         | none =>
             ((lookupKey q "baromin").bind rustParseF64).map
               (fun x => ObservationValue.Float (F64.finite (x * 33.8638866667)))) := by
  refine ⟨?_, ?_, ?_, ?_⟩
  · simp only [ingest_ecowitt_obs]
    rw [lookupKey_applyF64_ne _ _ _ _ _ _ (by decide),
      lookupKey_applyF64_ne _ _ _ _ _ _ (by decide),
      lookupKey_applyF64_ne _ _ _ _ _ _ (by decide),
      lookupKey_applyF64_ne _ _ _ _ _ _ (by decide),
      lookupKey_applyI64_ne _ _ _ _ _ (by decide),
      lookupKey_applyF64_ne _ _ _ _ _ _ (by decide),
      lookupKey_applyF64_ne _ _ _ _ _ _ (by decide),
      lookupKey_applyF64_self]
    cases (lookupKey q "baromin").bind rustParseF64 with
    | none =>
        rw [lookupKey_applyI64_ne _ _ _ _ _ (by decide),
          lookupKey_applyF64_ne _ _ _ _ _ _ (by decide)]
        rfl
    | some x => rfl
  · simp only [ingest_ecowitt_obs]
    rw [lookupKey_applyF64_ne _ _ _ _ _ _ (by decide),
      lookupKey_applyF64_ne _ _ _ _ _ _ (by decide),
      lookupKey_applyF64_ne _ _ _ _ _ _ (by decide),
      lookupKey_applyF64_ne _ _ _ _ _ _ (by decide),
      lookupKey_applyI64_ne _ _ _ _ _ (by decide),
      lookupKey_applyF64_ne _ _ _ _ _ _ (by decide),
      lookupKey_applyF64_ne _ _ _ _ _ _ (by decide),
      lookupKey_applyF64_ne _ _ _ _ _ _ (by decide),
      lookupKey_applyI64_ne _ _ _ _ _ (by decide),
      lookupKey_applyF64_ne _ _ _ _ _ _ (by decide)]
    rfl
  · simp only [ingest_post_obs]
    rw [lookupKey_applyF64_ne _ _ _ _ _ _ (by decide),
      lookupKey_applyF64_ne _ _ _ _ _ _ (by decide),
      lookupKey_applyF64_ne _ _ _ _ _ _ (by decide),
      lookupKey_applyF64_ne _ _ _ _ _ _ (by decide),
      lookupKey_applyI64_ne _ _ _ _ _ (by decide),
      lookupKey_applyF64_ne _ _ _ _ _ _ (by decide),
      lookupKey_applyF64_ne _ _ _ _ _ _ (by decide),
      lookupKey_applyF64_ne _ _ _ _ _ _ (by decide),
      lookupKey_applyF64_self]
    cases (lookupKey q "baromabsin").bind rustParseF64 with
    | none =>
        rw [lookupKey_applyF64_ne _ _ _ _ _ _ (by decide),
          lookupKey_applyI64_ne _ _ _ _ _ (by decide),
          lookupKey_applyF64_ne _ _ _ _ _ _ (by decide)]
        rfl
    | some x => rfl
  · simp only [ingest_post_obs]
    rw [lookupKey_applyF64_ne _ _ _ _ _ _ (by decide),
      lookupKey_applyF64_ne _ _ _ _ _ _ (by decide),
      lookupKey_applyF64_ne _ _ _ _ _ _ (by decide),
      lookupKey_applyF64_ne _ _ _ _ _ _ (by decide),
      lookupKey_applyI64_ne _ _ _ _ _ (by decide),
      lookupKey_applyF64_ne _ _ _ _ _ _ (by decide),
      lookupKey_applyF64_ne _ _ _ _ _ _ (by decide),
      lookupKey_applyF64_self]
    cases (lookupKey q "baromrelin").bind rustParseF64 with
    | none =>
        rw [lookupKey_applyF64_ne _ _ _ _ _ _ (by decide),
          lookupKey_applyF64_self]
        cases (lookupKey q "baromin").bind rustParseF64 with
        | none =>
            rw [lookupKey_applyI64_ne _ _ _ _ _ (by decide),
              lookupKey_applyF64_ne _ _ _ _ _ _ (by decide)]
            rfl
        | some x => rfl
    | some x => rfl

/- ### C1 -/

/-- Scenario packet at `t = 100` with `outTemp = 10`. -/
def pT100 : WeatherPacket :=
  { date_time := 100, station := none, interval := none,
    observations := [("outTemp", ObservationValue.Float (F64.finite 10))] }

/-- Scenario packet at `t = 200` with `outTemp = 20`. -/
def pT200 : WeatherPacket :=
  { date_time := 200, station := none, interval := none,
    observations := [("outTemp", ObservationValue.Float (F64.finite 20))] }

/-- Scenario packet at `t = 400` with `outTemp = 99`. -/
def pT400 : WeatherPacket :=
  { date_time := 400, station := none, interval := none,
    observations := [("outTemp", ObservationValue.Float (F64.finite 99))] }

/-- C1: what the code actually does on the boundary scenario
(`I = 300`, packets at `t ∈ {100, 200, 400}`).  The first two calls write
nothing and buffer the packets.  The third call flushes, but
`flush_interval` drains the buffer *after* `PacketBuffer::add` has already
pushed the boundary-triggering packet, so the `dateTime = 300` record
aggregates all three packets (`outTemp` average `43`, not `15`) and the
buffer is left empty — the `t = 400` packet is *not* retained for the next
interval, contradicting the claimed scenario. -/
theorem C1_boundary_flush_code :
    (((IntervalAggregator.new 300 16 { rows := [] }).add_packet pT100).map
        (fun a => (a.db_client.rows.length, a.buffer.packets)))
      = Except.ok (0, [pT100])
    ∧ ((((IntervalAggregator.new 300 16 { rows := [] }).add_packet pT100).bind
          (fun a => a.add_packet pT200)).map
        (fun a => (a.db_client.rows.length, a.buffer.packets)))
      = Except.ok (0, [pT100, pT200])
    ∧ ((((IntervalAggregator.new 300 16 { rows := [] }).add_packet pT100).bind
          (fun a => a.add_packet pT200)).bind
        (fun a => a.add_packet pT400))
      = Except.ok
          { interval := 300, unit_system := 16,
            buffer := { interval := 300, packets := [],
                        current_interval_end := none, max_packets := 600 },
            db_client :=
              { rows := [ { date_time := 300, us_units := 16, interval := 300,
                            out_temp := some (F64.finite 43),
                            in_temp := none, extra_temp1 := none,
                            out_humidity := none, in_humidity := none,
                            barometer := none, pressure := none,
                            altimeter := none, wind_speed := none,
                            wind_dir := none, wind_gust := none,
                            wind_gust_dir := none, rain := none,
                            rain_rate := none, dewpoint := none,
                            windchill := none, heatindex := none,
                            radiation := none, uv := none,
                            rx_check_percent := none } ] } } := by
  refine ⟨?_, ?_, ?_⟩ <;> with_unfolding_all decide
